import Mathlib

/-!
Verification of the `AuthContext` shared-state cell of the repository
`basit2023/Reactjs-intern` (file `src/react-intern/src/AuthContext.js`).

The provider component reads its initial value with
`JSON.parse(localStorage.getItem('user'))`, keeps the value in a single
state slot `user`, and exposes `login = (userData) => setUser(userData)`
and `logout = () => setUser(null)` to consumers, which receive the
current value through the context (`{ user, login, logout }`).

The embedding below models:
  * the JSON values and the host `JSON.parse` on the fragment the
    repository stores (null, booleans, strings without escape
    sequences, and flat-or-nested objects) — a parse failure is the
    `SyntaxError` the host raises;
  * the `localStorage` slot as an `Option String`; `getItem` of an
    absent key returns the host `null`, which `JSON.parse` coerces to
    the string "null";
  * the cell itself, with the observer registry and synchronous
    notification described by the specification (the concrete observer
    wiring is React context propagation, outside the repository's own
    sources, so it is modelled from the specification's contract for
    `subscribe`/notify).
-/

namespace ReactIntern

/-- JSON values, on the fragment of JSON the repository persists. -/
inductive Json where
  | null : Json
  | bool (b : Bool) : Json
  | str (s : String) : Json
  | obj (fields : List (String × Json)) : Json

/-- Drop leading JSON whitespace. -/
def skipWs : List Char → List Char
  | [] => []
  | c :: cs => if c = ' ' ∨ c = '\n' ∨ c = '\t' ∨ c = '\r' then skipWs cs else c :: cs

/-- Read the body of a JSON string after the opening quote, up to the
closing quote.  Escape sequences are outside the modelled fragment and
are rejected. -/
def parseStrChars : List Char → Option (List Char × List Char)
  | [] => none
  | c :: cs =>
    if c = '"' then some ([], cs)
    else if c = '\\' then none
    else (parseStrChars cs).map (fun p => (c :: p.1, p.2))

mutual

/-- Parse one JSON value; fuel bounds the recursion depth.  Models the
recursive descent the host `JSON.parse` performs on the fragment. -/
def parseVal : Nat → List Char → Option (Json × List Char)
  | 0, _ => none
  | fuel + 1, cs =>
    match skipWs cs with
    | 'n' :: 'u' :: 'l' :: 'l' :: rest => some (Json.null, rest)
    | 't' :: 'r' :: 'u' :: 'e' :: rest => some (Json.bool true, rest)
    | 'f' :: 'a' :: 'l' :: 's' :: 'e' :: rest => some (Json.bool false, rest)
    | '"' :: rest =>
      (parseStrChars rest).map (fun p => (Json.str (String.mk p.1), p.2))
    | '{' :: rest =>
      match skipWs rest with
      | '}' :: rest1 => some (Json.obj [], rest1)
      | other => (parseMembers fuel other).map (fun p => (Json.obj p.1, p.2))
    | _ => none

/-- Parse one or more `"key": value` members followed by the closing
brace. -/
def parseMembers : Nat → List Char → Option (List (String × Json) × List Char)
  | 0, _ => none
  | fuel + 1, cs =>
    match skipWs cs with
    | '"' :: rest =>
      match parseStrChars rest with
      | none => none
      | some (key, rest1) =>
        match skipWs rest1 with
        | ':' :: rest2 =>
          match parseVal fuel rest2 with
          | none => none
          | some (v, rest3) =>
            match skipWs rest3 with
            | ',' :: rest4 =>
              (parseMembers fuel rest4).map
                (fun p => ((String.mk key, v) :: p.1, p.2))
            | '}' :: rest4 => some ([(String.mk key, v)], rest4)
            | _ => none
        | _ => none
    | _ => none

end

/-- The host `JSON.parse` on a whole string: parse one value and require
only whitespace after it.  `none` is the `SyntaxError` the host throws. -/
def jsonParse (s : String) : Option Json :=
  match parseVal (2 * s.length + 2) s.toList with
  | some (j, rest) => if skipWs rest = [] then some j else none
  | none => none

/-- `localStorage.getItem('user')` returns `null` when the slot is
absent; `JSON.parse` coerces that `null` argument to the string "null".
A present slot is passed through as the stored string. -/
def slotToParseInput : Option String → String
  | none => "null"
  | some s => s

/-- One subscribed-observer identifier. -/
abbrev SubId := Nat

/-- The shared-state cell: the `user` state slot of `AuthProvider`,
together with the observer registry of the specification's
`SharedStateCell` (fresh identifiers from `nextId`) and the log of
delivered notifications, most recent first. -/
structure Cell where
  user : Json
  observers : List SubId
  nextId : Nat
  log : List (SubId × Json)

/-- The cell as first constructed around an initial value: no observers
yet, no notifications delivered. -/
def initCell (j : Json) : Cell :=
  { user := j, observers := [], nextId := 0, log := [] }

/-- Construction of `AuthProvider`:
`const data = JSON.parse(localStorage.getItem('user'))` followed by
`useState(data)`.  There is no try/catch in the source, so a parse
failure propagates as the host's `SyntaxError`. -/
def authProviderInit (slot : Option String) : Except String Cell :=
  match jsonParse (slotToParseInput slot) with
  | none => Except.error "SyntaxError: JSON.parse"
  | some j => Except.ok (initCell j)

/-- Reading the current value from the context: the `user` field of the
provider value. -/
def read (c : Cell) : Json :=
  c.user

/-- The state update behind both setters: replace the value and deliver
one synchronous notification to every currently registered observer
(the delivery is recorded in the log of the state `setUser` returns,
so it is complete before the operation returns). -/
def setUser (v : Json) (c : Cell) : Cell :=
  { c with
    user := v
    log := (c.observers.map (fun i => (i, v))) ++ c.log }

/-- `const login = (userData) => setUser(userData)`. -/
def login (userData : Json) (c : Cell) : Cell :=
  setUser userData c

/-- `const logout = () => setUser(null)`. -/
def logout (c : Cell) : Cell :=
  setUser Json.null c

/-- Modelled from the spec: `subscribe(observer) -> unsubscribeHandle`
registers a callback invoked on every subsequent `write`/`clear`.  The
observer wiring in the repository is React context propagation, which
is not part of the repository's sources; the registry here follows the
specification's contract.  Returns the fresh identifier that the
unsubscribe handle closes over. -/
def subscribe (c : Cell) : SubId × Cell :=
  (c.nextId,
   { c with observers := c.nextId :: c.observers, nextId := c.nextId + 1 })

/-- Modelled from the spec: invoking the unsubscribe handle removes the
observer from the registry. -/
def unsubscribe (i : SubId) (c : Cell) : Cell :=
  { c with observers := c.observers.filter (fun j => j ≠ i) }

/-- Number of notifications delivered to observer `i` in a log. -/
def countNotifs (i : SubId) (log : List (SubId × Json)) : Nat :=
  (log.filter (fun e => e.1 = i)).length

/-- Number of times observer `i` occurs in a registry. -/
def countObs (i : SubId) : List SubId → Nat
  | [] => 0
  | a :: rest => countObs i rest + (if a = i then 1 else 0)

/-- Registry and log identifiers are all below the fresh-identifier
counter. -/
def wfCell (c : Cell) : Bool :=
  c.observers.all (fun i => i < c.nextId) &&
  c.log.all (fun e => e.1 < c.nextId)

/-- The operations a caller can perform on the cell after
construction. -/
inductive Op where
  | login (v : Json) : Op
  | logout : Op
  | subscribe : Op
  | unsubscribe (i : SubId) : Op

/-- Apply one operation to the cell. -/
def applyOp (c : Cell) : Op → Cell
  | Op.login v => login v c
  | Op.logout => logout c
  | Op.subscribe => (subscribe c).2
  | Op.unsubscribe i => unsubscribe i c

/-- Run a sequence of operations in order. -/
def run (ops : List Op) (c : Cell) : Cell :=
  match ops with
  | [] => c
  | op :: rest => run rest (applyOp c op)

/-- A sequence of `login` writes applied in order. -/
def writeSeq (vs : List Json) (c : Cell) : Cell :=
  run (vs.map Op.login) c

/-- The whole application state: the persisted `localStorage` slot for
the key `'user'` alongside the cell. -/
structure AppState where
  store : Option String
  cell : Cell

/-- `login` seen at the application level: the source setter touches
only the React state slot, never `localStorage`. -/
def loginApp (v : Json) (s : AppState) : AppState :=
  { s with cell := login v s.cell }

/-- `logout` seen at the application level. -/
def logoutApp (s : AppState) : AppState :=
  { s with cell := logout s.cell }

/-- `read` seen as a state transformer: it returns the current value
and the (unchanged) state it was given. -/
def readApp (s : AppState) : Json × AppState :=
  (read s.cell, s)

/-- One step of the cell, as a relation (the graph of `applyOp`), used
to state determinism of the cell's behaviour. -/
inductive StepRel : Op → Cell → Cell → Prop where
  | loginS (v : Json) (c : Cell) : StepRel (Op.login v) c (login v c)
  | logoutS (c : Cell) : StepRel Op.logout c (logout c)
  | subS (c : Cell) : StepRel Op.subscribe c (subscribe c).2
  | unsubS (i : SubId) (c : Cell) : StepRel (Op.unsubscribe i) c (unsubscribe i c)

/-- A whole execution of an operation sequence, as a relation. -/
inductive RunRel : Cell → List Op → Cell → Prop where
  | done (c : Cell) : RunRel c [] c
  | more {op : Op} {c c' c'' : Cell} {ops : List Op} :
      StepRel op c c' → RunRel c' ops c'' → RunRel c (op :: ops) c''

section Lemmas

/-- Running an appended sequence runs the two parts in order. -/
theorem run_append (l1 l2 : List Op) (c : Cell) :
    run (l1 ++ l2) c = run l2 (run l1 c) := by
  induction l1 generalizing c with
  | nil => rfl
  | cons op rest ih => simp [run, ih]

theorem countNotifs_append (i : SubId) (l1 l2 : List (SubId × Json)) :
    countNotifs i (l1 ++ l2) = countNotifs i l1 + countNotifs i l2 := by
  simp [countNotifs, List.filter_append]

theorem countNotifs_eq_zero {i : SubId} {log : List (SubId × Json)}
    (h : ∀ e ∈ log, e.1 ≠ i) : countNotifs i log = 0 := by
  simp only [countNotifs, List.length_eq_zero, List.filter_eq_nil_iff]
  intro e he
  simpa using h e he

theorem countNotifs_map_zero {i : SubId} {obs : List SubId} (v : Json)
    (h : i ∉ obs) : countNotifs i (obs.map (fun o => (o, v))) = 0 := by
  refine countNotifs_eq_zero ?_
  intro e he
  rcases List.mem_map.mp he with ⟨o, ho, rfl⟩
  intro hoi
  exact h (by simpa using hoi ▸ ho)

theorem countNotifs_cons_self (i : SubId) (v : Json)
    (l : List (SubId × Json)) :
    countNotifs i ((i, v) :: l) = countNotifs i l + 1 := by
  simp [countNotifs, List.filter_cons]

theorem countNotifs_setUser (i : SubId) (v : Json) (c : Cell)
    (h : i ∉ c.observers) :
    countNotifs i (setUser v c).log = countNotifs i c.log := by
  simp [setUser, countNotifs_append, countNotifs_map_zero v h]

theorem countNotifs_cons (i : SubId) (e : SubId × Json)
    (l : List (SubId × Json)) :
    countNotifs i (e :: l) = countNotifs i l + if e.1 = i then 1 else 0 := by
  by_cases h : e.1 = i <;> simp [countNotifs, List.filter_cons, h]

theorem countObs_not_mem {i : SubId} {obs : List SubId} (h : i ∉ obs) :
    countObs i obs = 0 := by
  induction obs with
  | nil => rfl
  | cons a obs ih =>
    have hai : a ≠ i := by
      intro he
      exact h (by simp [he])
    have hio : i ∉ obs := fun hm => h (List.mem_cons_of_mem _ hm)
    simp [countObs, hai, ih hio]

theorem countObs_filter_ne {i j : SubId} (h : j ≠ i) (obs : List SubId) :
    countObs i (obs.filter (fun x => x ≠ j)) = countObs i obs := by
  induction obs with
  | nil => rfl
  | cons a obs ih =>
    simp only [ne_eq, decide_not] at ih ⊢
    rw [List.filter_cons]
    by_cases haj : a = j
    · have hji : ¬(j = i) := h
      simp [haj, countObs, hji, ih]
    · simp [haj, countObs, ih]

/-- Each occurrence of an observer in the registry contributes one
notification entry when the registry is mapped to deliveries. -/
theorem countNotifs_map_count (i : SubId) (v : Json) (obs : List SubId) :
    countNotifs i (obs.map (fun o => (o, v))) = countObs i obs := by
  induction obs with
  | nil => rfl
  | cons a obs ih =>
    rw [List.map_cons, countNotifs_cons, ih]
    rfl

/-- A state update delivers exactly one additional notification to an
observer that is registered exactly once. -/
theorem countNotifs_setUser_once (i : SubId) (v : Json) (c : Cell)
    (h : countObs i c.observers = 1) :
    countNotifs i (setUser v c).log = countNotifs i c.log + 1 := by
  show countNotifs i ((c.observers.map (fun o => (o, v))) ++ c.log) =
    countNotifs i c.log + 1
  rw [countNotifs_append, countNotifs_map_count, h, Nat.add_comm]

/-- One operation that is not this observer's own unsubscription keeps
the observer registered exactly once, with its identifier still below
the fresh counter. -/
theorem applyOp_subscribed_once (i : SubId) (c : Cell) (op : Op)
    (hop : op ≠ Op.unsubscribe i) (h1 : i < c.nextId)
    (h2 : countObs i c.observers = 1) :
    i < (applyOp c op).nextId ∧ countObs i (applyOp c op).observers = 1 := by
  cases op with
  | login v => exact ⟨h1, h2⟩
  | logout => exact ⟨h1, h2⟩
  | subscribe =>
    refine ⟨Nat.lt_succ_of_lt h1, ?_⟩
    show countObs i (c.nextId :: c.observers) = 1
    have hne : c.nextId ≠ i := fun he => absurd (he ▸ h1) (Nat.lt_irrefl i)
    simp [countObs, hne, h2]
  | unsubscribe j =>
    have hji : j ≠ i := by
      intro he
      exact hop (by rw [he])
    refine ⟨h1, ?_⟩
    show countObs i (c.observers.filter (fun x => x ≠ j)) = 1
    rw [countObs_filter_ne hji, h2]

/-- Over any operation sequence that never unsubscribes this observer,
the observer stays registered exactly once. -/
theorem run_subscribed_once (i : SubId) (ops : List Op) :
    ∀ c : Cell, Op.unsubscribe i ∉ ops → i < c.nextId →
      countObs i c.observers = 1 →
      i < (run ops c).nextId ∧ countObs i (run ops c).observers = 1 := by
  induction ops with
  | nil => exact fun _ _ h1 h2 => ⟨h1, h2⟩
  | cons op rest ih =>
    intro c hops h1 h2
    have hop : op ≠ Op.unsubscribe i := by
      intro he
      exact hops (by rw [he]; exact List.mem_cons_self _ _)
    rcases applyOp_subscribed_once i c op hop h1 h2 with ⟨g1, g2⟩
    exact ih (applyOp c op) (fun hm => hops (List.mem_cons_of_mem _ hm)) g1 g2

/-- One operation neither re-registers a non-subscribed observer below
the fresh counter nor notifies it. -/
theorem applyOp_not_subscribed (i : SubId) (c : Cell) (op : Op)
    (h1 : i < c.nextId) (h2 : i ∉ c.observers) :
    i < (applyOp c op).nextId ∧ i ∉ (applyOp c op).observers ∧
      countNotifs i (applyOp c op).log = countNotifs i c.log := by
  cases op with
  | login v =>
    exact ⟨h1, h2, countNotifs_setUser i v c h2⟩
  | logout =>
    exact ⟨h1, h2, countNotifs_setUser i Json.null c h2⟩
  | subscribe =>
    refine ⟨Nat.lt_succ_of_lt h1, ?_, rfl⟩
    intro hmem
    rcases List.mem_cons.mp hmem with heq | hmem2
    · exact absurd heq (Nat.ne_of_lt h1)
    · exact h2 hmem2
  | unsubscribe j =>
    refine ⟨h1, ?_, rfl⟩
    intro hmem
    exact h2 (List.mem_of_mem_filter hmem)

/-- Over any operation sequence, an observer that is not subscribed and
whose identifier is already used receives no further notification. -/
theorem run_not_subscribed (i : SubId) (ops : List Op) (c : Cell)
    (h1 : i < c.nextId) (h2 : i ∉ c.observers) :
    countNotifs i (run ops c).log = countNotifs i c.log := by
  induction ops generalizing c with
  | nil => rfl
  | cons op rest ih =>
    rcases applyOp_not_subscribed i c op h1 h2 with ⟨g1, g2, g3⟩
    calc countNotifs i (run rest (applyOp c op)).log
        = countNotifs i (applyOp c op).log := ih (applyOp c op) g1 g2
      _ = countNotifs i c.log := g3

theorem filter_self_idem {α : Type} (p : α → Bool) (l : List α) :
    (l.filter p).filter p = l.filter p := by
  induction l with
  | nil => rfl
  | cons a l ih =>
    by_cases h : p a = true <;> simp [List.filter, h, ih]

theorem stepRel_det {op : Op} {c c1 c2 : Cell}
    (h1 : StepRel op c c1) (h2 : StepRel op c c2) : c1 = c2 := by
  cases h1 <;> cases h2 <;> rfl

theorem runRel_det {ops : List Op} {c c1 c2 : Cell}
    (h1 : RunRel c ops c1) (h2 : RunRel c ops c2) : c1 = c2 := by
  induction h1 generalizing c2 with
  | done c => cases h2 with
    | done => rfl
  | more hs hr ih =>
    cases h2 with
    | more hs' hr' =>
      have h := stepRel_det hs hs'
      exact ih (by rw [h]; exact hr')

end Lemmas

/-- C1 counterexample: the persisted slot holding the malformed content
"oops" (not valid JSON) makes construction raise the host parse error
instead of succeeding with the empty value, refuting the claim that
construction succeeds for every slot content. -/
theorem c1_malformed_store_raises :
    authProviderInit (some "oops") = Except.error "SyntaxError: JSON.parse" := rfl

/-- C1 (amended): construction with an absent persisted slot succeeds
and `read()` immediately after returns the empty/unset value; but a
malformed (unparsable) persisted slot makes construction propagate the
parse error — the source has no try/catch around `JSON.parse`. -/
theorem c1_absent_ok_malformed_raises :
    (authProviderInit none = Except.ok (initCell Json.null) ∧
      read (initCell Json.null) = Json.null) ∧
    (∀ s : String, jsonParse s = none →
      authProviderInit (some s) = Except.error "SyntaxError: JSON.parse") := by
  refine ⟨⟨rfl, rfl⟩, ?_⟩
  intro s h
  simp [authProviderInit, slotToParseInput, h]

/-- C1 witness: the hypotheses of the amended theorem hold at the
concrete malformed content "oops". -/
theorem c1_witness :
    jsonParse "oops" = none ∧
    authProviderInit (some "oops") = Except.error "SyntaxError: JSON.parse" :=
  ⟨rfl, c1_absent_ok_malformed_raises.2 "oops" rfl⟩

/-- C2: for every value `v` and every prior cell state, `login v`
followed immediately by `read` returns exactly `v`. -/
theorem c2_write_then_read (c : Cell) (v : Json) :
    read (login v c) = v := rfl

/-- C3: for every nonempty write sequence (any prefix `vs` followed by
a final write `v`), `read` after the whole sequence returns the last
written value — last write wins at every point. -/
theorem c3_last_write_wins (c : Cell) (vs : List Json) (v : Json) :
    read (writeSeq (vs ++ [v]) c) = v := by
  simp only [writeSeq, List.map_append, run_append]
  rfl

/-- C4: `logout` produces exactly the same state as `login` with the
empty value (`setUser(null)`), so `read` after `logout` is the empty
value. -/
theorem c4_clear_is_write_empty (c : Cell) :
    logout c = login Json.null c ∧ read (logout c) = Json.null :=
  ⟨rfl, rfl⟩

/-- C5: for a well-formed cell, the observer registered by `subscribe`
has received no notification right after subscribing, and over its
whole subscribed lifetime — after any intervening operation sequence
that does not unsubscribe it — every single subsequent `login` or
`logout` call delivers exactly one notification to it (its count goes
up by exactly one at that call), recorded in the state that the
operation returns (synchronous delivery). -/
theorem c5_subscribe_notified_exactly_once (c : Cell) (h : wfCell c = true)
    (ops : List Op)
    (hops : Op.unsubscribe (subscribe c).1 ∉ ops) :
    countNotifs (subscribe c).1 (subscribe c).2.log = 0 ∧
    (∀ v : Json,
      countNotifs (subscribe c).1
          (login v (run ops (subscribe c).2)).log =
        countNotifs (subscribe c).1 (run ops (subscribe c).2).log + 1) ∧
    countNotifs (subscribe c).1
        (logout (run ops (subscribe c).2)).log =
      countNotifs (subscribe c).1 (run ops (subscribe c).2).log + 1 := by
  simp only [wfCell, Bool.and_eq_true, List.all_eq_true, decide_eq_true_eq] at h
  obtain ⟨hobs, hlog⟩ := h
  have hzero : countNotifs c.nextId c.log = 0 :=
    countNotifs_eq_zero (fun e he => Nat.ne_of_lt (hlog e he))
  have hnotmem : c.nextId ∉ c.observers := fun hmem =>
    Nat.lt_irrefl c.nextId (hobs c.nextId hmem)
  have hone : countObs c.nextId (subscribe c).2.observers = 1 := by
    show countObs c.nextId (c.nextId :: c.observers) = 1
    simp [countObs, countObs_not_mem hnotmem]
  have hlt : c.nextId < (subscribe c).2.nextId := Nat.lt_succ_self _
  rcases run_subscribed_once c.nextId ops (subscribe c).2 hops hlt hone
    with ⟨_, g2⟩
  exact ⟨hzero,
    fun v => countNotifs_setUser_once c.nextId v _ g2,
    countNotifs_setUser_once c.nextId Json.null _ g2⟩

/-- C5 witness: the theorem applied to the freshly constructed cell
with a prior write intervening between the subscription and the
observed call, at the concrete value "u". -/
theorem c5_witness :
    wfCell (initCell Json.null) = true ∧
    Op.unsubscribe (subscribe (initCell Json.null)).1 ∉
      [Op.login (Json.str "w")] ∧
    countNotifs (subscribe (initCell Json.null)).1
        (subscribe (initCell Json.null)).2.log = 0 ∧
    countNotifs (subscribe (initCell Json.null)).1
        (login (Json.str "u")
          (run [Op.login (Json.str "w")]
            (subscribe (initCell Json.null)).2)).log =
      countNotifs (subscribe (initCell Json.null)).1
        (run [Op.login (Json.str "w")]
          (subscribe (initCell Json.null)).2).log + 1 ∧
    countNotifs (subscribe (initCell Json.null)).1
        (logout
          (run [Op.login (Json.str "w")]
            (subscribe (initCell Json.null)).2)).log =
      countNotifs (subscribe (initCell Json.null)).1
        (run [Op.login (Json.str "w")]
          (subscribe (initCell Json.null)).2).log + 1 :=
  ⟨by decide, by simp,
   (c5_subscribe_notified_exactly_once (initCell Json.null) (by decide)
      [Op.login (Json.str "w")] (by simp)).1,
   (c5_subscribe_notified_exactly_once (initCell Json.null) (by decide)
      [Op.login (Json.str "w")] (by simp)).2.1 (Json.str "u"),
   (c5_subscribe_notified_exactly_once (initCell Json.null) (by decide)
      [Op.login (Json.str "w")] (by simp)).2.2⟩

/-- C6: once an observer whose identifier was issued earlier (so it is
below the fresh counter) is unsubscribed, no sequence of subsequent
operations — writes, clears, further subscriptions or unsubscriptions —
ever delivers another notification to it. -/
theorem c6_unsubscribed_never_notified (c : Cell) (i : SubId)
    (ops : List Op) (h : i < c.nextId) :
    countNotifs i (run ops (unsubscribe i c)).log =
      countNotifs i (unsubscribe i c).log := by
  refine run_not_subscribed i ops (unsubscribe i c) h ?_
  intro hmem
  have := List.of_mem_filter hmem
  simp at this

/-- C6 witness: the theorem applied after subscribing to the freshly
constructed cell, then unsubscribing and performing a write. -/
theorem c6_witness :
    0 < (subscribe (initCell Json.null)).2.nextId ∧
    countNotifs 0
        (run [Op.login (Json.str "x")]
          (unsubscribe 0 (subscribe (initCell Json.null)).2)).log =
      countNotifs 0 (unsubscribe 0 (subscribe (initCell Json.null)).2).log :=
  ⟨by decide,
   c6_unsubscribed_never_notified (subscribe (initCell Json.null)).2 0
     [Op.login (Json.str "x")] (by decide)⟩

/-- C7: invoking the unsubscribe handle a second time is an idempotent
no-op — the whole cell state, observer registry included, is identical
to the state after the first invocation. -/
theorem c7_unsubscribe_idempotent (c : Cell) (i : SubId) :
    unsubscribe i (unsubscribe i c) = unsubscribe i c := by
  simp [unsubscribe, filter_self_idem]

/-- C8: neither `login` nor `logout` touches the persisted store: the
`localStorage` slot the initial value was loaded from is unchanged by
every write and every clear. -/
theorem c8_write_preserves_store (s : AppState) (v : Json) :
    (loginApp v s).store = s.store ∧ (logoutApp s).store = s.store :=
  ⟨rfl, rfl⟩

/-- C9: `read` is a total function with no failure path, it returns the
current value, and it changes nothing: the cell's value, observer
registry, notification log and the persisted store are all exactly as
before. -/
theorem c9_read_pure (s : AppState) :
    (readApp s).1 = read s.cell ∧ (readApp s).2 = s :=
  ⟨rfl, rfl⟩

/-- C10: the cell is deterministic — two executions that construct from
the same persisted slot content and run the same operation sequence end
in the same state, so every read at corresponding points returns the
same value. -/
theorem c10_deterministic (slot : Option String) (ops : List Op)
    (c0 c0' d d' : Cell)
    (h0 : authProviderInit slot = Except.ok c0)
    (h0' : authProviderInit slot = Except.ok c0')
    (hr : RunRel c0 ops d) (hr' : RunRel c0' ops d') :
    d = d' ∧ read d = read d' := by
  have hc : c0 = c0' := by
    have := h0.symm.trans h0'
    exact Except.ok.inj this
  subst hc
  have hd : d = d' := runRel_det hr hr'
  exact ⟨hd, by rw [hd]⟩

/-- C10 witness: two executions from the absent slot running one write
of "a" reach the same state and read. -/
theorem c10_witness :
    login (Json.str "a") (initCell Json.null) =
      login (Json.str "a") (initCell Json.null) ∧
    read (login (Json.str "a") (initCell Json.null)) =
      read (login (Json.str "a") (initCell Json.null)) :=
  c10_deterministic none [Op.login (Json.str "a")]
    (initCell Json.null) (initCell Json.null)
    (login (Json.str "a") (initCell Json.null))
    (login (Json.str "a") (initCell Json.null))
    rfl rfl
    (RunRel.more (StepRel.loginS (Json.str "a") (initCell Json.null))
      (RunRel.done _))
    (RunRel.more (StepRel.loginS (Json.str "a") (initCell Json.null))
      (RunRel.done _))

end ReactIntern
